import Mathlib

/-!
Shallow embedding of the token lifecycle core of the node-express-prisma
auth service: the JWT utility class (src/utils/jwt.ts), the Prisma-backed
credential store (User and RefreshToken tables), and the five auth
controller operations in src/controllers/authController.ts (register,
login, refreshToken, logout, logoutAll).

Time is modelled as milliseconds since epoch (a Nat), matching the
JavaScript Date.getTime representation used by the source. Request bodies
carry Option String fields: none models an undefined field and the empty
string models the other JavaScript-falsy string, mirroring the truthiness
checks in the controllers.
-/

/-- Access-token payload: the JwtPayload of src/types/auth minus the
iat and exp claims, exactly what generateAccessToken is given. -/
structure JwtPayload where
  userId : String
  email : String
deriving DecidableEq, Repr

/-- Refresh-token payload: userId plus a per-issuance tokenId discriminator. -/
structure RefreshTokenPayload where
  userId : String
  tokenId : String
deriving DecidableEq, Repr

/-- Modelled from the spec: the jsonwebtoken library is an external
dependency, not part of src. Per the Token Codec section of the spec, a
token is a signed, self-contained assertion carrying a payload and an
embedded expiry, created with a secret. The serialized token string is
identified with its decoded content. -/
structure Jwt (P : Type) where
  payload : P
  secret : String
  exp : Nat
deriving DecidableEq, Repr

/-- Modelled from the spec: jwt.sign embeds an expiry equal to the signing
time plus the configured duration (in milliseconds). -/
def jwtSign {P : Type} (payload : P) (secret : String) (now expiresInMs : Nat) : Jwt P :=
  ⟨payload, secret, now + expiresInMs⟩

/-- Modelled from the spec: jwt.verify succeeds exactly when the token was
signed with the given secret and its embedded expiry has not yet elapsed;
any structural, signature, or expiry defect fails uniformly. -/
def jwtVerify {P : Type} (token : Jwt P) (secret : String) (now : Nat) : Option P :=
  if token.secret = secret ∧ now < token.exp then some token.payload else none

abbrev AccessJwt := Jwt JwtPayload
abbrev RefreshJwt := Jwt RefreshTokenPayload

/-- The static configuration read by JwtUtils: the two secrets and the two
token durations. The durations appear twice because the source both passes
the duration string to jwt.sign (whose parsing is internal to the external
library, modelled here as a precomputed millisecond count) and parses it
itself with getTokenExpiration (the string field). -/
structure AuthConfig where
  accessSecret : String
  refreshSecret : String
  accessExpiresMs : Nat
  refreshExpiresMs : Nat
  refreshExpiresIn : String
deriving DecidableEq, Repr

/-- JwtUtils.generateAccessToken: sign the payload with the access secret
and the configured access-token duration. -/
def JwtUtils.generateAccessToken (cfg : AuthConfig) (payload : JwtPayload) (now : Nat) : AccessJwt :=
  jwtSign payload cfg.accessSecret now cfg.accessExpiresMs

/-- JwtUtils.generateRefreshToken: sign the payload with the refresh secret
and the configured refresh-token duration. -/
def JwtUtils.generateRefreshToken (cfg : AuthConfig) (payload : RefreshTokenPayload) (now : Nat) : RefreshJwt :=
  jwtSign payload cfg.refreshSecret now cfg.refreshExpiresMs

/-- JwtUtils.verifyAccessToken: jwt.verify with the access secret, any
failure rethrown as the uniform message. -/
def JwtUtils.verifyAccessToken (cfg : AuthConfig) (token : AccessJwt) (now : Nat) :
    Except String JwtPayload :=
  match jwtVerify token cfg.accessSecret now with
  | some p => .ok p
  | none => .error ("Invalid access token")

/-- JwtUtils.verifyRefreshToken: jwt.verify with the refresh secret, any
failure rethrown as the uniform message. -/
def JwtUtils.verifyRefreshToken (cfg : AuthConfig) (token : RefreshJwt) (now : Nat) :
    Except String RefreshTokenPayload :=
  match jwtVerify token cfg.refreshSecret now with
  | some p => .ok p
  | none => .error ("Invalid refresh token")

/-- Numeric value of a run of decimal digits, as parseInt computes it on
the digits captured by the regex. -/
def digitsToNat (ds : List Char) : Nat :=
  ds.foldl (fun acc c => acc * 10 + (c.toNat - 48)) 0

/-- The anchored regex match of getTokenExpiration: a string matches
(\d+)([smhd]) anchored at both ends exactly when it is a nonempty run of
ASCII digits followed by a single unit letter among s, m, h, d. Returns
the captured magnitude and unit. -/
def matchDuration (s : String) : Option (Nat × Char) :=
  match s.data.reverse with
  | [] => none
  | u :: rds =>
    if ¬ rds = [] ∧ rds.reverse.all Char.isDigit ∧ (u = 's' ∨ u = 'm' ∨ u = 'h' ∨ u = 'd') then
      some (digitsToNat rds.reverse, u)
    else none

/-- JwtUtils.getTokenExpiration, with the current time passed explicitly:
match the duration string against the anchored regex, fail with the
format error when it does not match, otherwise add the magnitude times the
unit (in milliseconds) to the current time. The final default branch of
the switch is kept from the source, although the regex already restricts
the unit. -/
def JwtUtils.getTokenExpiration (expiresIn : String) (now : Nat) : Except String Nat :=
  match matchDuration expiresIn with
  | none => .error ("Invalid expiration format")
  | some (value, unit) =>
    match unit with
    | 's' => .ok (now + value * 1000)
    | 'm' => .ok (now + value * 60 * 1000)
    | 'h' => .ok (now + value * 60 * 60 * 1000)
    | 'd' => .ok (now + value * 24 * 60 * 60 * 1000)
    | _ => .error ("Invalid time unit")

/-- JwtUtils.extractTokenFromHeader: none models an undefined header. An
empty header string is JavaScript-falsy and also yields null; otherwise
the header must start with the literal Bearer prefix (seven characters)
and the rest of the string is returned. Prefix test and drop are expressed
on the character sequence. -/
def JwtUtils.extractTokenFromHeader (authHeader : Option String) : Option String :=
  match authHeader with
  | none => none
  | some h =>
    if h = "" ∨ ¬ h.data.take 7 = ("Bearer ").data then none
    else some (String.mk (h.data.drop 7))

/-- Modelled from the spec: the bcryptjs library is an external dependency.
The spec describes a one-way, salted hash at a cost factor; the hash is
modelled as an opaque record of the hashed password together with cost and
salt, so that the comparison below can succeed exactly for the original
password. -/
structure BcryptHash where
  source : String
  cost : Nat
  salt : Nat
deriving DecidableEq, Repr

/-- Modelled from the spec: bcrypt.hash at a cost factor, with the salt
passed explicitly as the randomness of the call. -/
def bcryptHash (password : String) (cost salt : Nat) : BcryptHash :=
  ⟨password, cost, salt⟩

/-- Modelled from the spec: bcrypt.compare succeeds exactly when the
supplied password is the one the hash was derived from. -/
def bcryptCompare (password : String) (h : BcryptHash) : Bool :=
  password = h.source

/-- A row of the User table: unique id, unique email, password hash,
optional display names, active flag, timestamps. -/
structure User where
  id : String
  email : String
  password : BcryptHash
  firstName : Option String
  lastName : Option String
  isActive : Bool
  createdAt : Nat
  updatedAt : Nat
deriving DecidableEq, Repr

/-- A row of the RefreshToken table: the token value (unique), the owning
user id (foreign key), and the absolute expiry computed at issuance. -/
structure RefreshTokenRecord where
  token : RefreshJwt
  userId : String
  expiresAt : Nat
deriving DecidableEq, Repr

/-- The credential store: the two Prisma tables. -/
structure DB where
  users : List User
  refreshTokens : List RefreshTokenRecord
deriving DecidableEq, Repr

/-- prisma.user.findUnique with a where clause on email. -/
def DB.findUserByEmail (db : DB) (email : String) : Option User :=
  db.users.find? (fun u => u.email = email)

/-- prisma.user.findUnique with a where clause on id. -/
def DB.findUserById (db : DB) (id : String) : Option User :=
  db.users.find? (fun u => u.id = id)

/-- prisma.refreshToken.findUnique with a where clause on the token value. -/
def DB.findRefreshToken (db : DB) (t : RefreshJwt) : Option RefreshTokenRecord :=
  db.refreshTokens.find? (fun r => r.token = t)

/-- prisma.user.create. -/
def DB.createUser (db : DB) (u : User) : DB :=
  { db with users := db.users ++ [u] }

/-- prisma.refreshToken.create. -/
def DB.createRefreshToken (db : DB) (r : RefreshTokenRecord) : DB :=
  { db with refreshTokens := db.refreshTokens ++ [r] }

/-- prisma.refreshToken.deleteMany with a where clause on the token value. -/
def DB.deleteRefreshTokensByToken (db : DB) (t : RefreshJwt) : DB :=
  { db with refreshTokens := db.refreshTokens.filter (fun r => ¬ r.token = t) }

/-- prisma.refreshToken.deleteMany with a where clause on the user id. -/
def DB.deleteRefreshTokensByUser (db : DB) (uid : String) : DB :=
  { db with refreshTokens := db.refreshTokens.filter (fun r => ¬ r.userId = uid) }

/-- The public user view built by register and login (and the select of
getProfile): id, email, optional display names, active flag, timestamps.
By construction it has no password field. -/
structure UserView where
  id : String
  email : String
  firstName : Option String
  lastName : Option String
  isActive : Bool
  createdAt : Nat
  updatedAt : Nat
deriving DecidableEq, Repr

/-- The projection from a stored user row to its public view, as performed
by the response-building code of register and login. -/
def toUserView (u : User) : UserView :=
  ⟨u.id, u.email, u.firstName, u.lastName, u.isActive, u.createdAt, u.updatedAt⟩

/-- The ApiResponse sent on a terminal outcome, together with the HTTP
status code it is sent with. -/
structure ApiResponse where
  status : Nat
  success : Bool
  message : String
  error : Option String
deriving DecidableEq, Repr

def validationErrorResp : ApiResponse :=
  ⟨400, false, "Email and password are required", some ("VALIDATION_ERROR")⟩

def userExistsResp : ApiResponse :=
  ⟨409, false, "User with this email already exists", some ("USER_EXISTS")⟩

def invalidCredsResp : ApiResponse :=
  ⟨401, false, "Invalid email or password", some ("INVALID_CREDENTIALS")⟩

def deactivatedResp : ApiResponse :=
  ⟨401, false, "Account is deactivated", some ("ACCOUNT_DEACTIVATED")⟩

def refreshRequiredResp : ApiResponse :=
  ⟨401, false, "Refresh token is required", some ("REFRESH_TOKEN_REQUIRED")⟩

def invalidRefreshResp : ApiResponse :=
  ⟨401, false, "Invalid refresh token", some ("INVALID_REFRESH_TOKEN")⟩

def refreshExpiredResp : ApiResponse :=
  ⟨401, false, "Refresh token expired or invalid", some ("REFRESH_TOKEN_EXPIRED")⟩

def internalErrorResp : ApiResponse :=
  ⟨500, false, "Internal server error", some ("INTERNAL_ERROR")⟩

def logoutSuccessResp : ApiResponse :=
  ⟨200, true, "Logout successful", none⟩

def logoutAllSuccessResp : ApiResponse :=
  ⟨200, true, "Logged out from all devices successfully", none⟩

def notAuthenticatedResp : ApiResponse :=
  ⟨401, false, "User not authenticated", some ("UNAUTHORIZED")⟩

/-- Outcome of register or login: a failure response, or a success carrying
the HTTP status, the public user view and the access token of the JSON
body, and the refresh token set as a cookie. -/
inductive AuthOutcome where
  | failure (resp : ApiResponse)
  | success (status : Nat) (user : UserView) (accessToken : AccessJwt) (refreshToken : RefreshJwt)
deriving DecidableEq, Repr

/-- Outcome of refreshToken: a failure response or a new access token. -/
inductive RefreshOutcome where
  | failure (resp : ApiResponse)
  | success (accessToken : AccessJwt)
deriving DecidableEq, Repr

def RefreshOutcome.isSuccess : RefreshOutcome → Bool
  | .failure _ => false
  | .success _ => true

/-- Register request body; none models an undefined field. -/
structure RegisterRequest where
  email : Option String
  password : Option String
  firstName : Option String
  lastName : Option String
deriving DecidableEq, Repr

/-- Login request body; none models an undefined field. -/
structure LoginRequest where
  email : Option String
  password : Option String
deriving DecidableEq, Repr

/-- The nondeterministic inputs a session-establishing request consumes:
the id the store assigns to a created user, the freshly generated tokenId
discriminator, and the salt drawn by bcrypt. -/
structure Fresh where
  newUserId : String
  tokenId : String
  salt : Nat
deriving DecidableEq, Repr

/-- AuthController.register, with body parsing done. The saltRounds
constant is 12. A created user carries the schema default of an active
flag set to true (the schema file is not part of src; per the spec, the
flag is only ever flipped by an external administrative process). A
failure of getTokenExpiration is caught by the surrounding try as an
internal error, after the user row was already created. -/
def registerCtrl (cfg : AuthConfig) (db : DB) (req : RegisterRequest) (g : Fresh) (now : Nat) :
    AuthOutcome × DB :=
  match req.email, req.password with
  | some email, some password =>
    if email = "" ∨ password = "" then (.failure validationErrorResp, db)
    else
      match db.findUserByEmail email with
      | some _ => (.failure userExistsResp, db)
      | none =>
        let hashed := bcryptHash password 12 g.salt
        let user : User := ⟨g.newUserId, email, hashed, req.firstName, req.lastName, true, now, now⟩
        let db1 := db.createUser user
        let accessToken := JwtUtils.generateAccessToken cfg ⟨user.id, user.email⟩ now
        let refreshToken := JwtUtils.generateRefreshToken cfg ⟨user.id, g.tokenId⟩ now
        match JwtUtils.getTokenExpiration cfg.refreshExpiresIn now with
        | .error _ => (.failure internalErrorResp, db1)
        | .ok expiresAt =>
          (.success 201 (toUserView user) accessToken refreshToken,
            db1.createRefreshToken ⟨refreshToken, user.id, expiresAt⟩)
  | _, _ => (.failure validationErrorResp, db)

/-- AuthController.login, with body parsing done. The deactivation check
precedes the password comparison; the missing-user and wrong-password
branches build their responses independently. -/
def loginCtrl (cfg : AuthConfig) (db : DB) (req : LoginRequest) (g : Fresh) (now : Nat) :
    AuthOutcome × DB :=
  match req.email, req.password with
  | some email, some password =>
    if email = "" ∨ password = "" then (.failure validationErrorResp, db)
    else
      match db.findUserByEmail email with
      | none => (.failure invalidCredsResp, db)
      | some user =>
        if ¬ user.isActive then (.failure deactivatedResp, db)
        else if ¬ bcryptCompare password user.password then (.failure invalidCredsResp, db)
        else
          let accessToken := JwtUtils.generateAccessToken cfg ⟨user.id, user.email⟩ now
          let refreshToken := JwtUtils.generateRefreshToken cfg ⟨user.id, g.tokenId⟩ now
          match JwtUtils.getTokenExpiration cfg.refreshExpiresIn now with
          | .error _ => (.failure internalErrorResp, db)
          | .ok expiresAt =>
            (.success 200 (toUserView user) accessToken refreshToken,
              db.createRefreshToken ⟨refreshToken, user.id, expiresAt⟩)
  | _, _ => (.failure validationErrorResp, db)

/-- The two transport channels a refresh or logout request may carry a
refresh token on: the refreshToken cookie, and the Authorization header.
The bearer field is the token of a header of the Bearer scheme; none
models an absent header or one with a different scheme, which the source
leaves unused. -/
structure TokenRequest where
  cookieRefreshToken : Option RefreshJwt
  bearerRefreshToken : Option RefreshJwt
deriving DecidableEq, Repr

/-- The token-source selection of AuthController.refreshToken: the cookie
first, and only when it is absent, the Bearer token of the Authorization
header. -/
def TokenRequest.selectedToken (req : TokenRequest) : Option RefreshJwt :=
  match req.cookieRefreshToken with
  | some t => some t
  | none => req.bearerRefreshToken

/-- AuthController.refreshToken. Checks, in order: a token is present;
it verifies against the refresh secret; a stored record with that exact
token value exists and its stored expiry is not in the past (one combined
check with one response); the joined owner is active. Only then is a new
access token minted. The Prisma include of the owner cannot fail under
foreign-key integrity; a dangling owner id would surface as a thrown
error, caught as an internal error. No store write occurs on any path. -/
def refreshTokenCtrl (cfg : AuthConfig) (db : DB) (req : TokenRequest) (now : Nat) :
    RefreshOutcome × DB :=
  match req.selectedToken with
  | none => (.failure refreshRequiredResp, db)
  | some refreshToken =>
    match JwtUtils.verifyRefreshToken cfg refreshToken now with
    | .error _ => (.failure invalidRefreshResp, db)
    | .ok _ =>
      match db.findRefreshToken refreshToken with
      | none => (.failure refreshExpiredResp, db)
      | some storedToken =>
        if storedToken.expiresAt < now then (.failure refreshExpiredResp, db)
        else
          match db.findUserById storedToken.userId with
          | none => (.failure internalErrorResp, db)
          | some user =>
            if ¬ user.isActive then (.failure deactivatedResp, db)
            else (.success (JwtUtils.generateAccessToken cfg ⟨user.id, user.email⟩ now), db)

/-- AuthController.logout. Reads only the refreshToken cookie: when it is
present the matching stored records are deleted, otherwise nothing is
deleted; either way the response is a success. The Authorization header
is never consulted. -/
def logoutCtrl (db : DB) (req : TokenRequest) : ApiResponse × DB :=
  match req.cookieRefreshToken with
  | some t => (logoutSuccessResp, db.deleteRefreshTokensByToken t)
  | none => (logoutSuccessResp, db)

/-- AuthController.logoutAll. The identity attached by the authentication
middleware is passed in; when present, every stored refresh-token record
owned by that user id is deleted. -/
def logoutAllCtrl (db : DB) (user : Option JwtPayload) : ApiResponse × DB :=
  match user with
  | none => (notAuthenticatedResp, db)
  | some u => (logoutAllSuccessResp, db.deleteRefreshTokensByUser u.userId)

/-- Whether an Except value is a success. -/
def isOkE {ε α : Type} (e : Except ε α) : Bool :=
  match e with
  | .ok _ => true
  | .error _ => false

/-- Written from the words of the spec, for comparison with
getTokenExpiration: a duration string is well shaped when it is an
integer magnitude followed by a single unit letter among s, m, h, d. -/
def durationShapeOk (s : String) : Prop :=
  ∃ ds u, s.data = ds ++ [u] ∧ ¬ ds = [] ∧ ds.all Char.isDigit = true ∧
    (u = 's' ∨ u = 'm' ∨ u = 'h' ∨ u = 'd')

/-- Written from the words of the spec: the millisecond weight of each
duration unit (seconds, minutes, hours, days). -/
def unitMillis : Char → Nat
  | 's' => 1000
  | 'm' => 60 * 1000
  | 'h' => 60 * 60 * 1000
  | 'd' => 24 * 60 * 60 * 1000
  | _ => 0

theorem matchDuration_eq_some_iff (s : String) (v : Nat) (u : Char) :
    matchDuration s = some (v, u) ↔
      ∃ ds, s.data = ds ++ [u] ∧ ¬ ds = [] ∧ ds.all Char.isDigit = true ∧
        (u = 's' ∨ u = 'm' ∨ u = 'h' ∨ u = 'd') ∧ v = digitsToNat ds := by
  rcases hrev : s.data.reverse with _ | ⟨u', rds⟩
  · have hmd : matchDuration s = none := by
      unfold matchDuration
      rw [hrev]
    rw [hmd]
    simp only [reduceCtorEq, false_iff]
    rintro ⟨ds, hdata, -, -, -, -⟩
    rw [hdata] at hrev
    simp at hrev
  · have hdata : s.data = rds.reverse ++ [u'] := by
      rw [List.reverse_eq_cons_iff] at hrev
      simpa using hrev
    have hmd : matchDuration s =
        if ¬ rds = [] ∧ rds.reverse.all Char.isDigit = true ∧
            (u' = 's' ∨ u' = 'm' ∨ u' = 'h' ∨ u' = 'd') then
          some (digitsToNat rds.reverse, u')
        else none := by
      unfold matchDuration
      rw [hrev]
    rw [hmd]
    constructor
    · intro h
      split at h
      · rename_i hc
        obtain ⟨hne, hdig, hu⟩ := hc
        simp only [Option.some.injEq, Prod.mk.injEq] at h
        obtain ⟨hv, huu⟩ := h
        subst huu
        refine ⟨rds.reverse, hdata, by simpa using hne, hdig, hu, hv.symm⟩
      · exact absurd h (by simp)
    · rintro ⟨ds, hdata2, hne, hdig, hu, hv⟩
      have hcomb : rds.reverse ++ [u'] = ds ++ [u] := hdata ▸ hdata2
      have hrc := congrArg List.reverse hcomb
      simp only [List.reverse_append, List.reverse_cons, List.reverse_nil, List.nil_append,
        List.reverse_reverse, List.cons_append, List.cons.injEq] at hrc
      obtain ⟨huu, hds⟩ := hrc
      subst huu
      have hds' : ds = rds.reverse := by
        have := congrArg List.reverse hds
        simpa using this.symm
      subst hds'
      rw [if_pos ⟨by simpa using hne, by simpa using hdig, hu⟩]
      rw [hv]

/-- Claim C4: getTokenExpiration, evaluated at time now, accepts exactly
the duration strings of shape integer-then-unit with unit among s, m, h,
d, returning now plus the magnitude times the unit weight; any other
shape fails with the format error. In particular 15m yields now plus 900
seconds, 7d yields now plus 604800 seconds, and bogus and a bare 15 fail. -/
theorem getTokenExpiration_spec (now : Nat) :
    (∀ s : String, isOkE (JwtUtils.getTokenExpiration s now) = true ↔ durationShapeOk s) ∧
    (∀ (s : String) (ds : List Char) (u : Char),
        s.data = ds ++ [u] → ¬ ds = [] → ds.all Char.isDigit = true →
        (u = 's' ∨ u = 'm' ∨ u = 'h' ∨ u = 'd') →
        JwtUtils.getTokenExpiration s now = .ok (now + digitsToNat ds * unitMillis u)) ∧
    JwtUtils.getTokenExpiration ("15m") now = .ok (now + 900 * 1000) ∧
    JwtUtils.getTokenExpiration ("7d") now = .ok (now + 604800 * 1000) ∧
    JwtUtils.getTokenExpiration ("bogus") now = .error ("Invalid expiration format") ∧
    JwtUtils.getTokenExpiration ("15") now = .error ("Invalid expiration format") := by
  have hgen : ∀ (s : String) (ds : List Char) (u : Char),
      s.data = ds ++ [u] → ¬ ds = [] → ds.all Char.isDigit = true →
      (u = 's' ∨ u = 'm' ∨ u = 'h' ∨ u = 'd') →
      JwtUtils.getTokenExpiration s now = .ok (now + digitsToNat ds * unitMillis u) := by
    intro s ds u hdata hne hdig hu
    have hmd : matchDuration s = some (digitsToNat ds, u) :=
      (matchDuration_eq_some_iff s (digitsToNat ds) u).mpr ⟨ds, hdata, hne, hdig, hu, rfl⟩
    unfold JwtUtils.getTokenExpiration
    rw [hmd]
    rcases hu with h | h | h | h <;> subst h <;> simp [unitMillis, Nat.mul_assoc]
  refine ⟨?_, hgen, ?_, ?_, ?_, ?_⟩
  · intro s
    constructor
    · intro hok
      unfold JwtUtils.getTokenExpiration at hok
      rcases hmd : matchDuration s with _ | ⟨v, u⟩
      · rw [hmd] at hok
        simp [isOkE] at hok
      · obtain ⟨ds, hdata, hne, hdig, hu, -⟩ := (matchDuration_eq_some_iff s v u).mp hmd
        exact ⟨ds, u, hdata, hne, hdig, hu⟩
    · rintro ⟨ds, u, hdata, hne, hdig, hu⟩
      rw [hgen s ds u hdata hne hdig hu]
      rfl
  · have h := hgen ("15m") ['1', '5'] 'm' (by decide) (by decide) (by decide) (by decide)
    rw [h, (by decide : digitsToNat ['1', '5'] * unitMillis 'm' = 900 * 1000)]
  · have h := hgen ("7d") ['7'] 'd' (by decide) (by decide) (by decide) (by decide)
    rw [h, (by decide : digitsToNat ['7'] * unitMillis 'd' = 604800 * 1000)]
  · have h : matchDuration ("bogus") = none := by decide
    unfold JwtUtils.getTokenExpiration
    rw [h]
  · have h : matchDuration ("15") = none := by decide
    unfold JwtUtils.getTokenExpiration
    rw [h]

theorem getTokenExpiration_spec_witness :
    JwtUtils.getTokenExpiration ("15m") 0 = .ok (0 + 900 * 1000) ∧
    JwtUtils.getTokenExpiration ("2h") 5 = .ok (5 + digitsToNat ['2'] * unitMillis 'h') :=
  ⟨(getTokenExpiration_spec 0).2.2.1,
   (getTokenExpiration_spec 5).2.1 ("2h") ['2'] 'h' (by decide) (by decide) (by decide)
     (by decide)⟩

/-- Claim C5: extractTokenFromHeader returns the substring after the
literal Bearer prefix whenever the header starts with it, and returns
none, never an error, when the header is absent or does not start with
it; in particular a Bearer abc header yields abc, a bare abc yields none,
and an absent header yields none. -/
theorem extractTokenFromHeader_spec :
    (∀ s : String, s.data.take 7 = ("Bearer ").data →
        JwtUtils.extractTokenFromHeader (some s) = some (String.mk (s.data.drop 7))) ∧
    (∀ s : String, ¬ s.data.take 7 = ("Bearer ").data →
        JwtUtils.extractTokenFromHeader (some s) = none) ∧
    JwtUtils.extractTokenFromHeader none = none ∧
    JwtUtils.extractTokenFromHeader (some ("Bearer abc")) = some ("abc") ∧
    JwtUtils.extractTokenFromHeader (some ("abc")) = none := by
  refine ⟨?_, ?_, rfl, by decide, by decide⟩
  · intro s hpre
    have hne : ¬ s = "" := by
      intro he
      subst he
      exact absurd hpre (by decide)
    simp only [JwtUtils.extractTokenFromHeader]
    rw [if_neg]
    push_neg
    exact ⟨hne, hpre⟩
  · intro s hpre
    simp only [JwtUtils.extractTokenFromHeader]
    rw [if_pos (Or.inr hpre)]

theorem extractTokenFromHeader_spec_witness :
    JwtUtils.extractTokenFromHeader (some ("Bearer xyz")) =
      some (String.mk (("Bearer xyz").data.drop 7)) ∧
    JwtUtils.extractTokenFromHeader (some ("Basic xyz")) = none :=
  ⟨extractTokenFromHeader_spec.1 ("Bearer xyz") (by decide),
   extractTokenFromHeader_spec.2.1 ("Basic xyz") (by decide)⟩

/-- Claim C6: minting an access token from a payload and verifying it
with the access secret before the access-token duration has elapsed
succeeds and returns the same userId and email. -/
theorem accessToken_roundtrip (cfg : AuthConfig) (p : JwtPayload) (mintTime checkTime : Nat)
    (h : checkTime < mintTime + cfg.accessExpiresMs) :
    JwtUtils.verifyAccessToken cfg (JwtUtils.generateAccessToken cfg p mintTime) checkTime =
      .ok p := by
  unfold JwtUtils.verifyAccessToken JwtUtils.generateAccessToken jwtSign jwtVerify
  rw [if_pos ⟨rfl, h⟩]

/-- An example configuration used only to instantiate theorems with
hypotheses on concrete inputs. -/
def cfgEx : AuthConfig :=
  ⟨"access-secret", "refresh-secret", 900000, 604800000, "7d"⟩

theorem accessToken_roundtrip_witness :
    JwtUtils.verifyAccessToken cfgEx
      (JwtUtils.generateAccessToken cfgEx ⟨"u1", "alice@example.com"⟩ 0) 1 =
      .ok ⟨"u1", "alice@example.com"⟩ :=
  accessToken_roundtrip cfgEx ⟨"u1", "alice@example.com"⟩ 0 1 (by decide)

/-- Claim C7: the login failure for an unknown email and the login failure
for a known, active user with a wrong password are the same response, with
the same status, error kind and client-facing message; a client cannot
distinguish the two runs. -/
theorem login_enumeration_resistance (cfg : AuthConfig) (db1 db2 : DB)
    (r1 r2 : LoginRequest) (g1 g2 : Fresh) (now1 now2 : Nat)
    (e1 p1 e2 p2 : String) (u : User)
    (h1e : r1.email = some e1) (h1p : r1.password = some p1)
    (h1ne : ¬ e1 = "") (h1np : ¬ p1 = "")
    (h2e : r2.email = some e2) (h2p : r2.password = some p2)
    (h2ne : ¬ e2 = "") (h2np : ¬ p2 = "")
    (hnouser : db1.findUserByEmail e1 = none)
    (huser : db2.findUserByEmail e2 = some u)
    (hactive : u.isActive = true)
    (hpw : bcryptCompare p2 u.password = false) :
    (loginCtrl cfg db1 r1 g1 now1).1 = (loginCtrl cfg db2 r2 g2 now2).1 ∧
    (loginCtrl cfg db1 r1 g1 now1).1 = .failure invalidCredsResp := by
  obtain ⟨oe1, op1⟩ := r1
  obtain ⟨oe2, op2⟩ := r2
  simp only at h1e h1p h2e h2p
  subst h1e
  subst h1p
  subst h2e
  subst h2p
  have ha : (loginCtrl cfg db1 ⟨some e1, some p1⟩ g1 now1).1 = .failure invalidCredsResp := by
    simp only [loginCtrl]
    rw [if_neg (by push_neg; exact ⟨h1ne, h1np⟩), hnouser]
  have hb : (loginCtrl cfg db2 ⟨some e2, some p2⟩ g2 now2).1 = .failure invalidCredsResp := by
    simp only [loginCtrl]
    rw [if_neg (by push_neg; exact ⟨h2ne, h2np⟩), huser]
    simp only [hactive, not_true_eq_false, if_false, hpw, Bool.false_eq_true,
      not_false_eq_true, if_true]
  exact ⟨ha.trans hb.symm, ha⟩

/-- An example user row used only to instantiate theorems with hypotheses
on concrete inputs. -/
def userEx : User :=
  ⟨"u1", "alice@example.com", ⟨"pw123456", 12, 3⟩, none, none, true, 0, 0⟩

theorem login_enumeration_resistance_witness :
    (loginCtrl cfgEx ⟨[], []⟩ ⟨some ("alice@example.com"), some ("nope")⟩ ⟨"u2", "t2", 4⟩ 0).1 =
      (loginCtrl cfgEx ⟨[userEx], []⟩ ⟨some ("alice@example.com"), some ("nope")⟩
        ⟨"u2", "t2", 4⟩ 0).1 ∧
    (loginCtrl cfgEx ⟨[], []⟩ ⟨some ("alice@example.com"), some ("nope")⟩ ⟨"u2", "t2", 4⟩ 0).1 =
      .failure invalidCredsResp :=
  login_enumeration_resistance cfgEx ⟨[], []⟩ ⟨[userEx], []⟩
    ⟨some ("alice@example.com"), some ("nope")⟩ ⟨some ("alice@example.com"), some ("nope")⟩
    ⟨"u2", "t2", 4⟩ ⟨"u2", "t2", 4⟩ 0 0
    "alice@example.com" "nope" "alice@example.com" "nope" userEx
    rfl rfl (by decide) (by decide) rfl rfl (by decide) (by decide)
    (by decide) (by decide) (by decide) (by decide)

/-- Claim C8: registering an email that already has a user record fails
with the conflict response and leaves the store exactly as it was: no
second user row, no new refresh-token record, and the failure outcome
carries no token. -/
theorem register_duplicate_atomic (cfg : AuthConfig) (db : DB) (req : RegisterRequest)
    (g : Fresh) (now : Nat) (e p : String) (u : User)
    (he : req.email = some e) (hp : req.password = some p)
    (hne : ¬ e = "") (hnp : ¬ p = "")
    (hdup : db.findUserByEmail e = some u) :
    registerCtrl cfg db req g now = (.failure userExistsResp, db) := by
  obtain ⟨oe, op, ofn, oln⟩ := req
  simp only at he hp
  subst he
  subst hp
  simp only [registerCtrl]
  rw [if_neg (by push_neg; exact ⟨hne, hnp⟩), hdup]

theorem register_duplicate_atomic_witness :
    registerCtrl cfgEx ⟨[userEx], []⟩
      ⟨some ("alice@example.com"), some ("other"), none, none⟩ ⟨"u9", "t9", 5⟩ 0 =
      (.failure userExistsResp, ⟨[userEx], []⟩) :=
  register_duplicate_atomic cfgEx ⟨[userEx], []⟩
    ⟨some ("alice@example.com"), some ("other"), none, none⟩ ⟨"u9", "t9", 5⟩ 0
    "alice@example.com" "other" userEx rfl rfl (by decide) (by decide) (by decide)

/-- Claim C9: the user view returned on a successful register or login is
the public projection of a stored user row: it carries only id, email,
optional display names, active flag and timestamps, and the projection is
independent of the password hash, so no view ever holds it. -/
theorem auth_user_views_no_password (cfg : AuthConfig) (db : DB) (rreq : RegisterRequest)
    (lreq : LoginRequest) (g : Fresh) (now : Nat) :
    (∀ st v a r db2, registerCtrl cfg db rreq g now = (.success st v a r, db2) →
        ∃ u, u ∈ db2.users ∧ v = toUserView u) ∧
    (∀ st v a r db2, loginCtrl cfg db lreq g now = (.success st v a r, db2) →
        ∃ u, u ∈ db.users ∧ v = toUserView u) ∧
    (∀ (u : User) (h : BcryptHash), toUserView { u with password := h } = toUserView u) := by
  refine ⟨?_, ?_, fun u h => rfl⟩
  · intro st v a r db2 hreg
    obtain ⟨oe, op, ofn, oln⟩ := rreq
    cases oe with
    | none => simp [registerCtrl] at hreg
    | some e =>
      cases op with
      | none => simp [registerCtrl] at hreg
      | some p =>
        simp only [registerCtrl] at hreg
        split at hreg
        · simp at hreg
        · split at hreg
          · simp at hreg
          · split at hreg
            · simp at hreg
            · simp only [Prod.mk.injEq, AuthOutcome.success.injEq] at hreg
              obtain ⟨⟨-, hv, -, -⟩, hdb⟩ := hreg
              refine ⟨⟨g.newUserId, e, bcryptHash p 12 g.salt, ofn, oln, true, now, now⟩,
                ?_, hv.symm⟩
              rw [← hdb]
              simp [DB.createRefreshToken, DB.createUser]
  · intro st v a r db2 hlog
    obtain ⟨oe, op⟩ := lreq
    cases oe with
    | none => simp [loginCtrl] at hlog
    | some e =>
      cases op with
      | none => simp [loginCtrl] at hlog
      | some p =>
        simp only [loginCtrl] at hlog
        split at hlog
        · simp at hlog
        · rcases hfind : db.findUserByEmail e with _ | u
          · simp only [hfind] at hlog
            simp at hlog
          · simp only [hfind] at hlog
            split at hlog
            · simp at hlog
            · split at hlog
              · simp at hlog
              · split at hlog
                · simp at hlog
                · simp only [Prod.mk.injEq, AuthOutcome.success.injEq] at hlog
                  obtain ⟨⟨-, hv, -, -⟩, -⟩ := hlog
                  exact ⟨u, List.mem_of_find?_eq_some hfind, hv.symm⟩

theorem auth_user_views_no_password_witness :
    ∃ u, u ∈ (registerCtrl cfgEx ⟨[], []⟩
        ⟨some ("alice@example.com"), some ("pw123456"), none, none⟩ ⟨"u1", "tid1", 3⟩ 0).2.users ∧
      toUserView userEx = toUserView u :=
  (auth_user_views_no_password cfgEx ⟨[], []⟩
      ⟨some ("alice@example.com"), some ("pw123456"), none, none⟩ ⟨none, none⟩
      ⟨"u1", "tid1", 3⟩ 0).1
    201 (toUserView userEx)
    (JwtUtils.generateAccessToken cfgEx ⟨"u1", "alice@example.com"⟩ 0)
    (JwtUtils.generateRefreshToken cfgEx ⟨"u1", "tid1"⟩ 0)
    (registerCtrl cfgEx ⟨[], []⟩
      ⟨some ("alice@example.com"), some ("pw123456"), none, none⟩ ⟨"u1", "tid1", 3⟩ 0).2
    (by decide)

/-- Characterization of refreshTokenCtrl once a token has been selected:
the body of the controller with the source selection resolved. -/
theorem refreshTokenCtrl_some (cfg : AuthConfig) (db : DB) (req : TokenRequest) (now : Nat)
    (t : RefreshJwt) (hsel : req.selectedToken = some t) :
    refreshTokenCtrl cfg db req now =
      match jwtVerify t cfg.refreshSecret now with
      | none => (.failure invalidRefreshResp, db)
      | some _ =>
        match db.findRefreshToken t with
        | none => (.failure refreshExpiredResp, db)
        | some storedToken =>
          if storedToken.expiresAt < now then (.failure refreshExpiredResp, db)
          else
            match db.findUserById storedToken.userId with
            | none => (.failure internalErrorResp, db)
            | some user =>
              if ¬ user.isActive then (.failure deactivatedResp, db)
              else (.success (JwtUtils.generateAccessToken cfg ⟨user.id, user.email⟩ now), db) := by
  simp only [refreshTokenCtrl, hsel, JwtUtils.verifyRefreshToken]
  cases hjv : jwtVerify t cfg.refreshSecret now <;> rfl

/-- Claim C1: once a refresh request has selected a token, a new access
token is issued exactly when the token verifies against the refresh
secret, a stored record with that token value exists whose expiry is not
in the past, and the owning user is active; and the checks fire in that
order, each failure producing its own response, so signature validity
alone never suffices. -/
theorem refreshToken_error_order (cfg : AuthConfig) (db : DB) (req : TokenRequest)
    (now : Nat) (t : RefreshJwt)
    (hsel : req.selectedToken = some t) :
    ((jwtVerify t cfg.refreshSecret now).isSome = false →
        (refreshTokenCtrl cfg db req now).1 = .failure invalidRefreshResp) ∧
    ((jwtVerify t cfg.refreshSecret now).isSome = true →
        (db.findRefreshToken t = none ∨
          ∃ r, db.findRefreshToken t = some r ∧ r.expiresAt < now) →
        (refreshTokenCtrl cfg db req now).1 = .failure refreshExpiredResp) ∧
    (∀ r u, (jwtVerify t cfg.refreshSecret now).isSome = true →
        db.findRefreshToken t = some r → ¬ r.expiresAt < now →
        db.findUserById r.userId = some u → u.isActive = false →
        (refreshTokenCtrl cfg db req now).1 = .failure deactivatedResp) ∧
    ((refreshTokenCtrl cfg db req now).1.isSuccess = true ↔
        (jwtVerify t cfg.refreshSecret now).isSome = true ∧
        ∃ r u, db.findRefreshToken t = some r ∧ ¬ r.expiresAt < now ∧
          db.findUserById r.userId = some u ∧ u.isActive = true) := by
  have hch := refreshTokenCtrl_some cfg db req now t hsel
  refine ⟨?_, ?_, ?_, ?_, ?_⟩
  · intro hv
    have hnone : jwtVerify t cfg.refreshSecret now = none := by
      rcases h : jwtVerify t cfg.refreshSecret now with _ | p
      · rfl
      · rw [h] at hv
        simp at hv
    rw [hch, hnone]
  · intro hv hrec
    obtain ⟨p, hp⟩ := Option.isSome_iff_exists.mp hv
    rcases hrec with hnone | ⟨r, hr, hexp⟩
    · rw [hch, hp, hnone]
    · rw [hch, hp, hr]
      simp [hexp]
  · intro r u hv hr hexp hu hact
    obtain ⟨p, hp⟩ := Option.isSome_iff_exists.mp hv
    rw [hch, hp, hr]
    simp [hexp, hu, hact]
  · intro hs
    rw [hch] at hs
    rcases hjv : jwtVerify t cfg.refreshSecret now with _ | p
    · rw [hjv] at hs
      simp [RefreshOutcome.isSuccess] at hs
    · rw [hjv] at hs
      rcases hr : db.findRefreshToken t with _ | r
      · rw [hr] at hs
        simp [RefreshOutcome.isSuccess] at hs
      · rw [hr] at hs
        by_cases hexp : r.expiresAt < now
        · simp only [if_pos hexp] at hs
          simp [RefreshOutcome.isSuccess] at hs
        · simp only [if_neg hexp] at hs
          rcases hu : db.findUserById r.userId with _ | u
          · rw [hu] at hs
            simp [RefreshOutcome.isSuccess] at hs
          · rw [hu] at hs
            by_cases hact : u.isActive
            · exact ⟨by simp, r, u, rfl, hexp, hu, hact⟩
            · simp only [if_pos (by simp [hact] : ¬ u.isActive = true)] at hs
              simp [RefreshOutcome.isSuccess] at hs
  · rintro ⟨hv, r, u, hr, hexp, hu, hact⟩
    obtain ⟨p, hp⟩ := Option.isSome_iff_exists.mp hv
    rw [hch, hp, hr]
    simp [hexp, hu, hact, RefreshOutcome.isSuccess]

/-- An example refresh token, session store, and requests used only to
instantiate theorems with hypotheses on concrete inputs. -/
def rtokEx : RefreshJwt := JwtUtils.generateRefreshToken cfgEx ⟨"u1", "tid1"⟩ 0

def dbSessEx : DB := ⟨[userEx], [⟨rtokEx, "u1", 604800000⟩]⟩

def reqCookieEx : TokenRequest := ⟨some rtokEx, none⟩

def reqBearerEx : TokenRequest := ⟨none, some rtokEx⟩

theorem refreshToken_error_order_witness :
    (refreshTokenCtrl cfgEx dbSessEx reqCookieEx 5).1.isSuccess = true :=
  (refreshToken_error_order cfgEx dbSessEx reqCookieEx 5 rtokEx rfl).2.2.2.mpr
    ⟨by decide, ⟨rtokEx, "u1", 604800000⟩, userEx, by decide, by decide, by decide, rfl⟩

/-- Claim C2: a successful logoutAll deletes every stored refresh-token
record owned by the user, and a later refresh with any token whose stored
records all belonged to that user fails with the expired response, even
though the token still verifies cryptographically. -/
theorem logoutAll_revokes (cfg : AuthConfig) (db : DB) (ident : JwtPayload) (t : RefreshJwt)
    (now : Nat)
    (howner : ∀ r ∈ db.refreshTokens, r.token = t → r.userId = ident.userId)
    (hver : (jwtVerify t cfg.refreshSecret now).isSome = true) :
    (logoutAllCtrl db (some ident)).1 = logoutAllSuccessResp ∧
    (∀ r ∈ (logoutAllCtrl db (some ident)).2.refreshTokens, ¬ r.userId = ident.userId) ∧
    (∀ req : TokenRequest, req.selectedToken = some t →
      (refreshTokenCtrl cfg (logoutAllCtrl db (some ident)).2 req now).1 =
        .failure refreshExpiredResp) := by
  refine ⟨rfl, ?_, ?_⟩
  · intro r hr
    simp only [logoutAllCtrl, DB.deleteRefreshTokensByUser] at hr
    rw [List.mem_filter] at hr
    simpa using hr.2
  · intro req hsel
    obtain ⟨p, hp⟩ := Option.isSome_iff_exists.mp hver
    have hnone : ((logoutAllCtrl db (some ident)).2).findRefreshToken t = none := by
      simp only [logoutAllCtrl, DB.deleteRefreshTokensByUser, DB.findRefreshToken]
      rw [List.find?_eq_none]
      intro r hr
      rw [List.mem_filter] at hr
      simp only [decide_eq_true_eq] at hr ⊢
      intro hrt
      exact absurd (howner r hr.1 hrt) hr.2
    rw [refreshTokenCtrl_some cfg _ req now t hsel, hp, hnone]

theorem logoutAll_revokes_witness :
    (refreshTokenCtrl cfgEx (logoutAllCtrl dbSessEx (some ⟨"u1", "alice@example.com"⟩)).2
        reqCookieEx 5).1 = .failure refreshExpiredResp :=
  (logoutAll_revokes cfgEx dbSessEx ⟨"u1", "alice@example.com"⟩ rtokEx 5
    (by decide) (by decide)).2.2 reqCookieEx rfl

/-- Claim C3: refreshToken never writes to the store, on any path: the
resulting store is the one it was given, so the presented refresh token
record is neither deleted, replaced nor modified; and after a successful
refresh, refreshing again with the same request succeeds with the same
new access token. -/
theorem refresh_no_store_write (cfg : AuthConfig) (db : DB) (req : TokenRequest) (now : Nat) :
    (refreshTokenCtrl cfg db req now).2 = db ∧
    (∀ a, (refreshTokenCtrl cfg db req now).1 = .success a →
      refreshTokenCtrl cfg (refreshTokenCtrl cfg db req now).2 req now = (.success a, db)) := by
  have hsnd : (refreshTokenCtrl cfg db req now).2 = db := by
    rcases hsel : req.selectedToken with _ | t
    · simp [refreshTokenCtrl, hsel]
    · rw [refreshTokenCtrl_some cfg db req now t hsel]
      repeat' first
      | rfl
      | split
  refine ⟨hsnd, ?_⟩
  intro a hsucc
  rw [hsnd]
  calc refreshTokenCtrl cfg db req now
      = ((refreshTokenCtrl cfg db req now).1, (refreshTokenCtrl cfg db req now).2) := rfl
    _ = (.success a, db) := by rw [hsucc, hsnd]

theorem refresh_no_store_write_witness :
    refreshTokenCtrl cfgEx (refreshTokenCtrl cfgEx dbSessEx reqCookieEx 5).2 reqCookieEx 5 =
      (.success (JwtUtils.generateAccessToken cfgEx ⟨"u1", "alice@example.com"⟩ 5), dbSessEx) :=
  (refresh_no_store_write cfgEx dbSessEx reqCookieEx 5).2
    (JwtUtils.generateAccessToken cfgEx ⟨"u1", "alice@example.com"⟩ 5) (by decide)

/-- Claim C10: logout deletes a stored refresh-token record only when the
token arrives in the cookie. When the cookie is absent, a refresh token
presented solely through the Authorization header is ignored: logout still
reports success and the store is unchanged, while refresh does select the
header token (it never answers with the missing-token response under the
same request). -/
theorem logout_ignores_bearer (db : DB) (req : TokenRequest) (t : RefreshJwt)
    (hc : req.cookieRefreshToken = none) (hb : req.bearerRefreshToken = some t) :
    logoutCtrl db req = (logoutSuccessResp, db) ∧
    req.selectedToken = some t ∧
    (∀ cfg now, ¬ (refreshTokenCtrl cfg db req now).1 = .failure refreshRequiredResp) := by
  obtain ⟨oc, ob⟩ := req
  simp only at hc hb
  subst hc
  subst hb
  refine ⟨rfl, rfl, ?_⟩
  intro cfg now
  rw [refreshTokenCtrl_some cfg db ⟨none, some t⟩ now t rfl]
  have hne : ∀ resp : ApiResponse, ¬ resp = refreshRequiredResp →
      ∀ db2 : DB, ¬ ((RefreshOutcome.failure resp, db2)).1 = .failure refreshRequiredResp := by
    intro resp hresp db2 h
    simp only [RefreshOutcome.failure.injEq] at h
    exact hresp h
  split
  · exact hne invalidRefreshResp (by decide) db
  · split
    · exact hne refreshExpiredResp (by decide) db
    · split
      · exact hne refreshExpiredResp (by decide) db
      · split
        · exact hne internalErrorResp (by decide) db
        · split
          · exact hne deactivatedResp (by decide) db
          · simp

theorem logout_ignores_bearer_witness :
    logoutCtrl dbSessEx reqBearerEx = (logoutSuccessResp, dbSessEx) ∧
    ¬ (refreshTokenCtrl cfgEx dbSessEx reqBearerEx 5).1 = .failure refreshRequiredResp :=
  ⟨(logout_ignores_bearer dbSessEx reqBearerEx rtokEx rfl rfl).1,
   (logout_ignores_bearer dbSessEx reqBearerEx rtokEx rfl rfl).2.2 cfgEx 5⟩
